import Mathlib

/-!
Shallow embedding of the animation-widget framework in
`src/L04-Objects/widgets.js`, together with proofs about its behaviour.

Widgets are stateful objects with three lifecycle methods (`tick`,
`isDone`, `reset`).  We embed each widget as an explicit state type and
pure state-transition functions.  Because several combinators mutate
state inside `isDone` (the auto-reset combinators), `isDone` is embedded
as `state → (Bool × state)`.  To reason about which child methods a
combinator invokes (and in which order), each combinator operation also
returns the list of child-method invocations it performs, as values of
`CEv` (child index, method, and for `isDone` the result the child
reported).
-/

/-- A child-method invocation performed by a combinator or by the
scheduler: `tick i` is a call of `tick()` on child `i`, `isDoneQ i r` is
a call of `isDone()` on child `i` that returned `r`, `reset i` is a call
of `reset()` on child `i`. -/
inductive CEv where
  | tick (i : Nat) : CEv
  | isDoneQ (i : Nat) (r : Bool) : CEv
  | reset (i : Nat) : CEv
deriving DecidableEq, Repr

/-- Membership test on event traces. -/
def hasEv : List CEv → CEv → Bool
  | [], _ => false
  | e :: r, x => if e = x then true else hasEv r x

/-- Occurrence count on event traces. -/
def countEv : List CEv → CEv → Nat
  | [], _ => 0
  | e :: r, x => (if e = x then 1 else 0) + countEv r x

/-- State of an `AsciiAnimation(sprites)` widget (widgets.js:33-69):
`frame` is the JS variable `animationFrame`, and `rendered` is the index
of the sprite whose text is currently shown in the `pre` element
(`useSprite(i)` sets `rendered := i`). -/
structure AsciiState where
  frame : Nat
  rendered : Nat
deriving DecidableEq, Repr

/-- Construction of `AsciiAnimation`: `animationFrame = 0; useSprite(0)`
(widgets.js:46-47). -/
def asciiAnimationInit : AsciiState := ⟨0, 0⟩

/-- `AsciiAnimation.tick` (widgets.js:57-62): increment `animationFrame`;
re-render only while the new index is still `< sprites.length`
(`len` is the sprite count). -/
def asciiAnimationTick (len : Nat) (s : AsciiState) : AsciiState :=
  let f := s.frame + 1
  if f < len then ⟨f, f⟩ else ⟨f, s.rendered⟩

/-- `AsciiAnimation.isDone` (widgets.js:64-66):
`animationFrame >= sprites.length`. -/
def asciiAnimationIsDone (len : Nat) (s : AsciiState) : Bool :=
  len ≤ s.frame

/-- `AsciiAnimation.reset` (widgets.js:53-55): sets `animationFrame = 0`
and does nothing else — in particular it does not call `useSprite`, so
the rendered content is left as it was. -/
def asciiAnimationReset (s : AsciiState) : AsciiState :=
  ⟨0, s.rendered⟩

/-- `AsciiAnimation.isDone` packaged in the `state → Bool × state` shape
used for children of combinators (the leaf query has no side effect). -/
def asciiAnimationDoneQ (len : Nat) (s : AsciiState) : Bool × AsciiState :=
  (asciiAnimationIsDone len s, s)

/-- Iterated `AsciiAnimation.tick` from the freshly constructed state. -/
def asciiAnimationRun (len : Nat) : Nat → AsciiState
  | 0 => asciiAnimationInit
  | n + 1 => asciiAnimationTick len (asciiAnimationRun len n)

/-- `Repeat(widget, times).tick` (widgets.js:87-104): `Repeat` does not
override `tick`, so via `Object.create(widget)` it delegates directly to
the wrapped widget's `tick`.  The state is the pair of the captured
`times` counter and the child state; `ct` is the child's `tick`. -/
def repeatTick {σ : Type} (ct : σ → σ) (ts : Int × σ) :
    (Int × σ) × List CEv :=
  ((ts.1, ct ts.2), [CEv.tick 0])

/-- `Repeat(widget, times).isDone` (widgets.js:90-101): if `times <= 0`
return true; otherwise query the child (`cd`), and if it is done,
decrement `times` and reset it (`cr`); in either of the latter cases
return false. -/
def repeatIsDone {σ : Type} (cd : σ → Bool × σ) (cr : σ → σ)
    (ts : Int × σ) : (Bool × (Int × σ)) × List CEv :=
  if ts.1 ≤ 0 then ((true, ts), [])
  else
    match cd ts.2 with
    | (true, s1) =>
        ((false, (ts.1 - 1, cr s1)), [CEv.isDoneQ 0 true, CEv.reset 0])
    | (false, s1) =>
        ((false, (ts.1, s1)), [CEv.isDoneQ 0 false])

/-- Construction of `Repeat(widget, times)` (widgets.js:87-88): no
validation is performed on `times`; the combinator is created
unconditionally with the given counter and child. -/
def repeatInit {σ : Type} (times : Int) (s : σ) : Int × σ :=
  (times, s)

/-- `RepeatIndefinitely(widget).tick` (widgets.js:72-84): not overridden,
delegates to the wrapped widget's `tick`. -/
def repeatIndefinitelyTick {σ : Type} (ct : σ → σ) (s : σ) :
    σ × List CEv :=
  (ct s, [CEv.tick 0])

/-- `RepeatIndefinitely(widget).isDone` (widgets.js:75-81): query the
child; if it is done, reset it; always return false. -/
def repeatIndefinitelyIsDone {σ : Type} (cd : σ → Bool × σ) (cr : σ → σ)
    (s : σ) : (Bool × σ) × List CEv :=
  match cd s with
  | (true, s1) => ((false, cr s1), [CEv.isDoneQ 0 true, CEv.reset 0])
  | (false, s1) => ((false, s1), [CEv.isDoneQ 0 false])

/-- The scheduler loop of `animation(widget, period)` (widgets.js:10-20):
each step runs `widget.tick()` and then `widget.isDone()`, stopping as
soon as `isDone` returns true.  The loop is embedded fuel-bounded; the
result is (final state, number of `tick` calls performed, whether the
loop terminated because `isDone` returned true, accumulated child-event
trace). -/
def animationDrive {α : Type} (tk : α → α × List CEv)
    (dn : α → (Bool × α) × List CEv) : Nat → α → α × Nat × Bool × List CEv
  | 0, s => (s, 0, false, [])
  | n + 1, s =>
    match tk s with
    | (s1, e1) =>
      match dn s1 with
      | ((true, s2), e2) => (s2, 1, true, e1 ++ e2)
      | ((false, s2), e2) =>
        match animationDrive tk dn n s2 with
        | (s3, k, f, e3) => (s3, k + 1, f, e1 ++ e2 ++ e3)

/-- The sequence of widget states observed right after each `tick()` of
the scheduler loop of `animation` (widgets.js:10-20), fuel-bounded. -/
def animationStates {α : Type} (tk : α → α × List CEv)
    (dn : α → (Bool × α) × List CEv) : Nat → α → List α
  | 0, _ => []
  | n + 1, s =>
    match tk s with
    | (s1, _) =>
      match dn s1 with
      | ((true, _), _) => [s1]
      | ((false, s2), _) => s1 :: animationStates tk dn n s2

/-- A child widget of a container combinator, embedded as its three
lifecycle methods together with its current state.  All children of one
container share the state type `σ`. -/
structure Child (σ : Type) where
  tickF : σ → σ
  doneF : σ → Bool × σ
  resetF : σ → σ
  state : σ

/-- `Horizontal(widgets).tick` (widgets.js:150-152): calls `tick()` on
every child, in list order, unconditionally.  `Array.prototype.each` is
not among the given source files; modelled from the spec: in-order
iteration over the array (§4.6). -/
def horizontalTick {σ : Type} (cs : List (Child σ)) : List (Child σ) :=
  cs.map fun c => { c with state := c.tickF c.state }

/-- One step of the fold in `Horizontal(widgets).isDone`
(widgets.js:154-156): the reducer is
`function(widget, b) { return widget.isDone() && b; }` where the
repository's `Array.prototype.reduce(f, acc)` computes `acc = f(elem, acc)`
left to right — so the child's `isDone()` is evaluated for every element
before the conjunction with the accumulator.  The updated child (with the
side effects of its `isDone` applied) is appended to the output list. -/
def horizontalStep {σ : Type} (p : Bool × List (Child σ)) (c : Child σ) :
    Bool × List (Child σ) :=
  match c.doneF c.state with
  | (d, s1) => (d && p.1, p.2 ++ [{ c with state := s1 }])

/-- `Horizontal(widgets).isDone` (widgets.js:154-156): left fold of
`horizontalStep` over the children, starting from accumulator `true`. -/
def horizontalIsDone {σ : Type} (cs : List (Child σ)) :
    Bool × List (Child σ) :=
  cs.foldl horizontalStep (true, [])

/-- `Horizontal(widgets).reset` (widgets.js:146-148): resets every child
in list order. -/
def horizontalReset {σ : Type} (cs : List (Child σ)) : List (Child σ) :=
  cs.map fun c => { c with state := c.resetF c.state }

/-- Construction of `Horizontal(widgets)` (widgets.js:136-144): builds
the container element by appending each child's element and performs no
validation whatsoever; construction always succeeds, also on `[]`. -/
def horizontalInit {σ : Type} (cs : List (Child σ)) :
    Option (List (Child σ)) :=
  some cs

/-- Construction of `Sequence(widgets)` (widgets.js:190-196): evaluates
`widgets[0].getElement()`, which on an empty array is an access on
`undefined` and throws — so construction fails (with a TypeError, not a
`ConfigurationError`) exactly when the list is empty; otherwise the
cursor `position` starts at 0. -/
def sequenceInit {σ : Type} (cs : List (Child σ)) :
    Option (Nat × List (Child σ)) :=
  match cs with
  | [] => none
  | _ :: _ => some (0, cs)

/-- State of `Sequence([a, b])` for two children of state types `σ` and
`τ`: the cursor `position` (widgets.js:194) and the two child states. -/
structure Seq2 (σ τ : Type) where
  pos : Nat
  a : σ
  b : τ

/-- `Sequence([a, b]).tick` (widgets.js:207-209): `widgets[position].tick()`
— ticks only the child at the cursor; with the cursor out of range the
array access yields `undefined` and the call throws, embedded as `none`. -/
def seq2Tick {σ τ : Type} (ta : σ → σ) (tb : τ → τ) (s : Seq2 σ τ) :
    Option (Seq2 σ τ × List CEv) :=
  if s.pos = 0 then some ({ s with a := ta s.a }, [CEv.tick 0])
  else if s.pos = 1 then some ({ s with b := tb s.b }, [CEv.tick 1])
  else none

/-- `Sequence([a, b]).isDone` (widgets.js:211-217): the skip-ahead loop
`while (position < widgets.length && widgets[position].isDone()) position += 1`
unrolled for a two-element array, followed by `position >= widgets.length`.
`da`/`db` are the two children's `isDone` methods. -/
def seq2IsDone {σ τ : Type} (da : σ → Bool × σ) (db : τ → Bool × τ)
    (s : Seq2 σ τ) : (Bool × Seq2 σ τ) × List CEv :=
  if s.pos = 0 then
    match da s.a with
    | (true, a1) =>
      match db s.b with
      | (true, b1) =>
          ((true, ⟨2, a1, b1⟩), [CEv.isDoneQ 0 true, CEv.isDoneQ 1 true])
      | (false, b1) =>
          ((false, ⟨1, a1, b1⟩), [CEv.isDoneQ 0 true, CEv.isDoneQ 1 false])
    | (false, a1) => ((false, ⟨0, a1, s.b⟩), [CEv.isDoneQ 0 false])
  else if s.pos = 1 then
    match db s.b with
    | (true, b1) => ((true, ⟨2, s.a, b1⟩), [CEv.isDoneQ 1 true])
    | (false, b1) => ((false, ⟨1, s.a, b1⟩), [CEv.isDoneQ 1 false])
  else ((true, s), [])

/-- The scheduler loop of `animation` (widgets.js:10-20) driving a
`Sequence([a, b])`: each step runs `tick()` then `isDone()`, stopping
when `isDone` returns true; `none` if a tick hit an out-of-range cursor.
Returns (final state if no error, finished flag, child-event trace). -/
def seq2Drive {σ τ : Type} (ta : σ → σ) (tb : τ → τ)
    (da : σ → Bool × σ) (db : τ → Bool × τ) :
    Nat → Seq2 σ τ → Option (Seq2 σ τ) × Bool × List CEv
  | 0, s => (some s, false, [])
  | n + 1, s =>
    match seq2Tick ta tb s with
    | none => (none, false, [])
    | some (s1, e1) =>
      match seq2IsDone da db s1 with
      | ((true, s2), e2) => (some s2, true, e1 ++ e2)
      | ((false, s2), e2) =>
        match seq2Drive ta tb da db n s2 with
        | (r, f, e3) => (r, f, e1 ++ e2 ++ e3)

/-- `true` iff in the given trace no `tick` of child 1 occurs before the
first `isDone` query on child 0 that returned true (scanning stops at
that query). -/
def noBTickBeforeADone : List CEv → Bool
  | [] => true
  | e :: r =>
    if e = CEv.isDoneQ 0 true then true
    else if e = CEv.tick 1 then false
    else noBTickBeforeADone r

/-- `true` iff in the given trace no `tick` of child 0 occurs after the
first `isDone` query on child 0 that returned true. -/
def noATickAfterADone : List CEv → Bool
  | [] => true
  | e :: r =>
    if e = CEv.isDoneQ 0 true then !(hasEv r (CEv.tick 0))
    else noATickAfterADone r

/-- `true` iff the event concerns child 0. -/
def isAEvent : CEv → Bool
  | CEv.tick 0 => true
  | CEv.isDoneQ 0 _ => true
  | CEv.reset 0 => true
  | _ => false

/-- `true` iff the trace contains no event on child 0. -/
def noAEvents : List CEv → Bool
  | [] => true
  | e :: r => !isAEvent e && noAEvents r

/-- State of `Widget.ChangingPosition(maxTime, atTime)`
(widgets.js:242-277): the elapsed counter `time`, the offset most
recently applied by `moveIt()`, and the wrapped widget's state. -/
structure CPState (σ : Type) where
  time : Nat
  posApplied : Int × Int
  child : σ

/-- Construction of `ChangingPosition` (widgets.js:246-257): `time = 0`
and `moveIt()` applies `atTime(0)`. -/
def changingPositionInit {σ : Type} (atTime : Nat → Int × Int) (s : σ) :
    CPState σ :=
  ⟨0, atTime 0, s⟩

/-- `ChangingPosition.isDone` (widgets.js:272-274): `time >= maxTime`. -/
def changingPositionIsDone {σ : Type} (maxTime : Nat) (st : CPState σ) :
    Bool :=
  maxTime ≤ st.time

/-- `ChangingPosition.tick` (widgets.js:263-270): if not done, increment
`time`, apply `atTime(time)`, then tick the wrapped widget (`ct`). -/
def changingPositionTick {σ : Type} (maxTime : Nat)
    (atTime : Nat → Int × Int) (ct : σ → σ) (st : CPState σ) : CPState σ :=
  if maxTime ≤ st.time then st
  else ⟨st.time + 1, atTime (st.time + 1), ct st.child⟩

/-- `ChangingPosition.reset`: the combinator does not override `reset`
(widgets.js:242-277 defines no `reset`), so through the prototype chain
the call lands on the wrapped widget's `reset` (`cr`), which resets the
wrapped widget's own state; `time` and the applied position are
untouched. -/
def changingPositionReset {σ : Type} (cr : σ → σ) (st : CPState σ) :
    CPState σ :=
  { st with child := cr st.child }

/-- Iterated `ChangingPosition.tick` from the freshly constructed
state. -/
def changingPositionRun {σ : Type} (maxTime : Nat)
    (atTime : Nat → Int × Int) (ct : σ → σ) (s : σ) : Nat → CPState σ
  | 0 => changingPositionInit atTime s
  | n + 1 =>
    changingPositionTick maxTime atTime ct
      (changingPositionRun maxTime atTime ct s n)

/-- Claim C1 fails on the code: driving `Repeat(AsciiAnimation(3 sprites), 2)`
with the scheduler performs 7 `tick()` calls before the composite's
`isDone()` returns true, not the 6 the claim states. -/
theorem c1_repeat_two_runs_counterexample :
    (animationDrive (repeatTick (asciiAnimationTick 3))
        (repeatIsDone (asciiAnimationDoneQ 3) asciiAnimationReset) 20
        ((2 : Int), asciiAnimationInit)).2.1 = 7 ∧
      ¬ (animationDrive (repeatTick (asciiAnimationTick 3))
          (repeatIsDone (asciiAnimationDoneQ 3) asciiAnimationReset) 20
          ((2 : Int), asciiAnimationInit)).2.1 = 6 := by
  decide

/-- Claim C1 amended: driving a 3-frame `AsciiAnimation` wrapped in
`Repeat(_, 2)` with the scheduler performs exactly 7 `tick()` calls
before the composite reports done; the rendered-sprite sequence observed
after each tick is 1, 2, (unchanged 2), 1, 2, (unchanged 2), 1 — the
auto-reset inside `isDone` does not re-render frame 0, and one extra
tick lands after the second run because the `isDone` call that
decrements the counter to 0 still returns false. -/
theorem c1_repeat_two_runs_amended :
    (animationDrive (repeatTick (asciiAnimationTick 3))
        (repeatIsDone (asciiAnimationDoneQ 3) asciiAnimationReset) 20
        ((2 : Int), asciiAnimationInit)).2.1 = 7 ∧
      (animationDrive (repeatTick (asciiAnimationTick 3))
          (repeatIsDone (asciiAnimationDoneQ 3) asciiAnimationReset) 20
          ((2 : Int), asciiAnimationInit)).2.2.1 = true ∧
      (animationDrive (repeatTick (asciiAnimationTick 3))
          (repeatIsDone (asciiAnimationDoneQ 3) asciiAnimationReset) 20
          ((2 : Int), asciiAnimationInit)).1 = ((0 : Int), (⟨1, 1⟩ : AsciiState)) ∧
      (animationStates (repeatTick (asciiAnimationTick 3))
          (repeatIsDone (asciiAnimationDoneQ 3) asciiAnimationReset) 20
          ((2 : Int), asciiAnimationInit)).map (fun p => p.2.rendered)
        = [1, 2, 2, 1, 2, 2, 1] := by
  decide

/-- Claim C2 fails on the code: with a 1-frame `AsciiAnimation` child,
driving `Repeat(w, 0)` with the scheduler advances the child's frame
counter from 0 to 1 and the trace records a `tick` on the child —
`Repeat` does not override `tick`, and the scheduler calls `tick()`
before the first `isDone()` query. -/
theorem c2_repeat_zero_counterexample :
    (animationDrive (repeatTick (asciiAnimationTick 1))
        (repeatIsDone (asciiAnimationDoneQ 1) asciiAnimationReset) 5
        ((0 : Int), asciiAnimationInit)).1.2.frame = 1 ∧
      hasEv (animationDrive (repeatTick (asciiAnimationTick 1))
          (repeatIsDone (asciiAnimationDoneQ 1) asciiAnimationReset) 5
          ((0 : Int), asciiAnimationInit)).2.2.2 (CEv.tick 0) = true := by
  decide

/-- Claim C2 amended: for every widget `w`, `Repeat(w, 0).isDone()`
returns true on the first query without invoking any method of `w`; but
`Repeat(w, 0).tick()` delegates to `w.tick()`, and since the scheduler
calls `tick()` before `isDone()`, `w` receives exactly one `tick()` when
`Repeat(w, 0)` is driven, after which the loop stops. -/
theorem c2_repeat_zero_amended {σ : Type} (ct : σ → σ) (cd : σ → Bool × σ)
    (cr : σ → σ) (s : σ) (n : Nat) :
    repeatIsDone cd cr ((0 : Int), s) = ((true, ((0 : Int), s)), []) ∧
      repeatTick ct ((0 : Int), s) = (((0 : Int), ct s), [CEv.tick 0]) ∧
      animationDrive (repeatTick ct) (repeatIsDone cd cr) (n + 1)
          ((0 : Int), s)
        = (((0 : Int), ct s), 1, true, [CEv.tick 0]) := by
  refine ⟨by simp [repeatIsDone], rfl, ?_⟩
  simp [animationDrive, repeatTick, repeatIsDone]

/-- Claim C3 fails on the code: after one tick of a 3-frame
`AsciiAnimation`, `reset()` leaves the rendered content at sprite 1 (it
only zeroes the frame index and never calls `useSprite`), so the state
after reset differs from the freshly constructed state. -/
theorem c3_reset_rerender_counterexample :
    (asciiAnimationReset (asciiAnimationTick 3 asciiAnimationInit)).rendered = 1 ∧
      asciiAnimationInit.rendered = 0 ∧
      asciiAnimationReset (asciiAnimationTick 3 asciiAnimationInit)
        ≠ asciiAnimationInit := by
  decide

/-- Claim C3 amended: after any sequence of `tick()` calls on an
`AsciiAnimation`, `reset()` sets the frame index back to 0 but does not
re-render: the displayed content stays at whatever sprite was last
rendered, so the post-reset state agrees with the freshly constructed
state in the frame index but not, in general, in the rendered content. -/
theorem c3_reset_amended (len n : Nat) :
    (asciiAnimationReset (asciiAnimationRun len n)).frame = 0 ∧
      (asciiAnimationReset (asciiAnimationRun len n)).rendered
        = (asciiAnimationRun len n).rendered :=
  ⟨rfl, rfl⟩

/-- Claim C7: for every `ChangingPosition(widget, maxTime, positionAtTime)`
state reached by any number of ticks from construction, `reset()`
applies the wrapped widget's own reset to the wrapped state but leaves
the elapsed-time counter (and the applied offset) unchanged, so
`isDone()` after the reset coincides with `isDone()` before it. -/
theorem c7_changing_position_reset {σ : Type} (maxTime : Nat)
    (atTime : Nat → Int × Int) (ct : σ → σ) (cr : σ → σ) (s0 : σ) (n : Nat) :
    (changingPositionReset cr (changingPositionRun maxTime atTime ct s0 n)).time
        = (changingPositionRun maxTime atTime ct s0 n).time ∧
      (changingPositionReset cr (changingPositionRun maxTime atTime ct s0 n)).child
        = cr (changingPositionRun maxTime atTime ct s0 n).child ∧
      changingPositionIsDone maxTime
          (changingPositionReset cr (changingPositionRun maxTime atTime ct s0 n))
        = changingPositionIsDone maxTime
            (changingPositionRun maxTime atTime ct s0 n) :=
  ⟨rfl, rfl, rfl⟩

/-- Claim C9: once an `AsciiAnimation` is done (frame index at or beyond
the sprite count), a further `tick()` leaves the rendered content
unchanged and `isDone()` still reports true. -/
theorem c9_ascii_tick_after_done (len : Nat) (s : AsciiState)
    (h : asciiAnimationIsDone len s = true) :
    asciiAnimationIsDone len (asciiAnimationTick len s) = true ∧
      (asciiAnimationTick len s).rendered = s.rendered := by
  simp [asciiAnimationIsDone] at h
  have hlt : ¬ (s.frame + 1 < len) := by omega
  simp [asciiAnimationIsDone, asciiAnimationTick, hlt]
  omega

/-- Witness for C9 at `len = 3`, state `⟨3, 2⟩`. -/
theorem c9_ascii_tick_after_done_witness :
    asciiAnimationIsDone 3 ⟨3, 2⟩ = true ∧
      (asciiAnimationIsDone 3 (asciiAnimationTick 3 ⟨3, 2⟩) = true ∧
        (asciiAnimationTick 3 ⟨3, 2⟩).rendered = (⟨3, 2⟩ : AsciiState).rendered) :=
  ⟨by decide, c9_ascii_tick_after_done 3 ⟨3, 2⟩ (by decide)⟩

lemma repeatIndefinitelyIsDone_false {σ : Type} (cd : σ → Bool × σ)
    (cr : σ → σ) (x : σ) :
    (repeatIndefinitelyIsDone cd cr x).1.1 = false := by
  rcases h : cd x with ⟨d, s1⟩
  cases d <;> simp [repeatIndefinitelyIsDone, h]

lemma repeatIndefinitely_never_finishes {σ : Type} (ct : σ → σ)
    (cd : σ → Bool × σ) (cr : σ → σ) :
    ∀ (n : Nat) (s : σ),
      (animationDrive (repeatIndefinitelyTick ct)
          (repeatIndefinitelyIsDone cd cr) n s).2.2.1 = false := by
  intro n
  induction n with
  | zero => intro s; rfl
  | succ n ih =>
    intro s
    have h1 : repeatIndefinitelyTick ct s = (ct s, [CEv.tick 0]) := rfl
    rcases h2 : repeatIndefinitelyIsDone cd cr (ct s) with ⟨⟨d, s2⟩, e2⟩
    have hd : d = false := by
      have h3 := repeatIndefinitelyIsDone_false cd cr (ct s)
      rw [h2] at h3
      exact h3
    subst hd
    rcases h4 : animationDrive (repeatIndefinitelyTick ct)
        (repeatIndefinitelyIsDone cd cr) n s2 with ⟨s3, k, f, e3⟩
    have h5 := ih s2
    rw [h4] at h5
    simp only at h5
    simp [animationDrive, h1, h2, h4, h5]

/-- Claim C6: for every widget `w`, `RepeatIndefinitely(w).isDone()`
always returns false (so the scheduler loop never finishes within any
bounded number of steps), and in each `isDone()` query the wrapped
widget is reset exactly once if that query observed it done, and not at
all otherwise. -/
theorem c6_repeat_indefinitely {σ : Type} (ct : σ → σ) (cd : σ → Bool × σ)
    (cr : σ → σ) (s : σ) (n : Nat) :
    (repeatIndefinitelyIsDone cd cr s).1.1 = false ∧
      countEv (repeatIndefinitelyIsDone cd cr s).2 (CEv.reset 0)
        = (if (cd s).1 = true then 1 else 0) ∧
      (animationDrive (repeatIndefinitelyTick ct)
          (repeatIndefinitelyIsDone cd cr) n s).2.2.1 = false := by
  refine ⟨repeatIndefinitelyIsDone_false cd cr s, ?_,
    repeatIndefinitely_never_finishes ct cd cr n s⟩
  rcases h : cd s with ⟨d, s1⟩
  cases d <;> simp [repeatIndefinitelyIsDone, h] <;> decide

/-- Claim C10: when `Repeat(w, times)` with `times ≥ 1` gets an
`isDone()` query in which `w` reports done, the counter is decremented
and `w` reset, but the query still returns false; only a later query
with the counter at 0 returns true — and under the scheduler's
tick-then-isDone loop, a state with counter 0 receives exactly one more
delegated `tick()` of `w` before the composite reports done. -/
theorem c10_repeat_counter_boundary {σ : Type} (ct : σ → σ)
    (cd : σ → Bool × σ) (cr : σ → σ) (s : σ) (times : Int) (n : Nat)
    (h : 1 ≤ times) (hd : (cd s).1 = true) :
    (repeatIsDone cd cr (times, s)).1.1 = false ∧
      (repeatIsDone cd cr (times, s)).1.2 = (times - 1, cr (cd s).2) ∧
      (repeatIsDone cd cr ((0 : Int), s)).1.1 = true ∧
      animationDrive (repeatTick ct) (repeatIsDone cd cr) (n + 1)
          ((0 : Int), s)
        = (((0 : Int), ct s), 1, true, [CEv.tick 0]) := by
  have hle : ¬ (times ≤ 0) := by omega
  rcases h2 : cd s with ⟨d, s1⟩
  rw [h2] at hd
  simp only at hd
  subst hd
  refine ⟨?_, ?_, by simp [repeatIsDone], ?_⟩
  · simp [repeatIsDone, hle, h2]
  · simp [repeatIsDone, hle, h2]
  · simp [animationDrive, repeatTick, repeatIsDone]

/-- Witness for C10 with a 1-frame `AsciiAnimation` in its done state
`⟨1, 0⟩`, counter 1, fuel 1. -/
theorem c10_repeat_counter_boundary_witness :
    ((1 : Int) ≤ 1 ∧ (asciiAnimationDoneQ 1 ⟨1, 0⟩).1 = true) ∧
      ((repeatIsDone (asciiAnimationDoneQ 1) asciiAnimationReset
            ((1 : Int), (⟨1, 0⟩ : AsciiState))).1.1 = false ∧
        (repeatIsDone (asciiAnimationDoneQ 1) asciiAnimationReset
            ((1 : Int), (⟨1, 0⟩ : AsciiState))).1.2
          = ((1 : Int) - 1,
              asciiAnimationReset (asciiAnimationDoneQ 1 ⟨1, 0⟩).2) ∧
        (repeatIsDone (asciiAnimationDoneQ 1) asciiAnimationReset
            ((0 : Int), (⟨1, 0⟩ : AsciiState))).1.1 = true ∧
        animationDrive (repeatTick (asciiAnimationTick 1))
            (repeatIsDone (asciiAnimationDoneQ 1) asciiAnimationReset)
            (0 + 1) ((0 : Int), (⟨1, 0⟩ : AsciiState))
          = (((0 : Int), asciiAnimationTick 1 ⟨1, 0⟩), 1, true,
              [CEv.tick 0])) :=
  ⟨⟨by decide, by decide⟩,
    c10_repeat_counter_boundary (asciiAnimationTick 1)
      (asciiAnimationDoneQ 1) asciiAnimationReset ⟨1, 0⟩ 1 0
      (by decide) (by decide)⟩

lemma horizontalIsDone_foldl {σ : Type} (cs : List (Child σ)) (b : Bool)
    (l : List (Child σ)) :
    cs.foldl horizontalStep (b, l)
      = ((cs.all fun c => (c.doneF c.state).1) && b,
         l ++ cs.map fun c => { c with state := (c.doneF c.state).2 }) := by
  induction cs generalizing b l with
  | nil => simp
  | cons c cs ih =>
    rcases h : c.doneF c.state with ⟨d, s1⟩
    simp only [List.foldl_cons, horizontalStep, h, ih, List.all_cons,
      List.map_cons, List.append_assoc, List.singleton_append]
    refine congrArg₂ Prod.mk ?_ rfl
    cases d <;> cases b <;> simp

/-- Claim C4: for every non-empty child list, `Horizontal.isDone()`
returns the conjunction of all children's `isDone()` results, every
child's `isDone()` is executed (its side effects land in the updated
child list, in list order) even when an earlier child already reported
not-done, and `Horizontal.tick()` ticks every child in list order,
including children that are already done. -/
theorem c4_horizontal_all_children {σ : Type} (cs : List (Child σ))
    (_h : cs ≠ []) :
    (horizontalIsDone cs).1 = (cs.all fun c => (c.doneF c.state).1) ∧
      (horizontalIsDone cs).2
        = (cs.map fun c => { c with state := (c.doneF c.state).2 }) ∧
      horizontalTick cs = (cs.map fun c => { c with state := c.tickF c.state }) := by
  refine ⟨?_, ?_, rfl⟩ <;>
    simp [horizontalIsDone, horizontalIsDone_foldl]

/-- Witness for C4 with a single counter child over `Nat`. -/
theorem c4_horizontal_all_children_witness :
    (([⟨fun m => m + 1, fun m => (decide (2 ≤ m), m), fun _ => 0, 0⟩] :
          List (Child Nat)) ≠ []) ∧
      ((horizontalIsDone
            ([⟨fun m => m + 1, fun m => (decide (2 ≤ m), m), fun _ => 0, 0⟩] :
              List (Child Nat))).1
          = (([⟨fun m => m + 1, fun m => (decide (2 ≤ m), m), fun _ => 0, 0⟩] :
              List (Child Nat)).all fun c => (c.doneF c.state).1) ∧
        (horizontalIsDone
            ([⟨fun m => m + 1, fun m => (decide (2 ≤ m), m), fun _ => 0, 0⟩] :
              List (Child Nat))).2
          = (([⟨fun m => m + 1, fun m => (decide (2 ≤ m), m), fun _ => 0, 0⟩] :
              List (Child Nat)).map
              fun c => { c with state := (c.doneF c.state).2 }) ∧
        horizontalTick
            ([⟨fun m => m + 1, fun m => (decide (2 ≤ m), m), fun _ => 0, 0⟩] :
              List (Child Nat))
          = (([⟨fun m => m + 1, fun m => (decide (2 ≤ m), m), fun _ => 0, 0⟩] :
              List (Child Nat)).map
              fun c => { c with state := c.tickF c.state })) :=
  ⟨by simp,
    c4_horizontal_all_children
      ([⟨fun m => m + 1, fun m => (decide (2 ≤ m), m), fun _ => 0, 0⟩] :
        List (Child Nat)) (by simp)⟩

lemma noAEvents_hasEv_tick {l : List CEv} (h : noAEvents l = true) :
    hasEv l (CEv.tick 0) = false := by
  induction l with
  | nil => rfl
  | cons e r ih =>
    simp only [noAEvents, Bool.and_eq_true, Bool.not_eq_eq_eq_not,
      Bool.not_true] at h
    have hne : e ≠ CEv.tick 0 := by
      intro hcontra
      subst hcontra
      simp [isAEvent] at h
    simp [hasEv, hne, ih h.2]

lemma seq2_pos_ge_one_noA {σ τ : Type} (ta : σ → σ) (tb : τ → τ)
    (da : σ → Bool × σ) (db : τ → Bool × τ) :
    ∀ (n : Nat) (s : Seq2 σ τ), 1 ≤ s.pos →
      noAEvents (seq2Drive ta tb da db n s).2.2 = true := by
  intro n
  induction n with
  | zero => intro s hs; rfl
  | succ n ih =>
    intro s hs
    rcases s with ⟨p, a, b⟩
    rcases p with _ | _ | m
    · exact absurd hs (by simp)
    · rcases hdb : db (tb b) with ⟨rb, b1⟩
      cases rb
      case true =>
        simp [seq2Drive, seq2Tick, seq2IsDone, hdb, noAEvents, isAEvent]
      case false =>
        rcases h4 : seq2Drive ta tb da db n ⟨1, a, b1⟩ with ⟨r, f, e3⟩
        have hih := ih ⟨1, a, b1⟩ (by simp)
        rw [h4] at hih
        simp only at hih
        simp [seq2Drive, seq2Tick, seq2IsDone, hdb, h4, noAEvents,
          isAEvent, hih]
    · simp [seq2Drive, seq2Tick, noAEvents]

lemma seq2_pos_zero_traces {σ τ : Type} (ta : σ → σ) (tb : τ → τ)
    (da : σ → Bool × σ) (db : τ → Bool × τ) :
    ∀ (n : Nat) (s : Seq2 σ τ), s.pos = 0 →
      noBTickBeforeADone (seq2Drive ta tb da db n s).2.2 = true ∧
        noATickAfterADone (seq2Drive ta tb da db n s).2.2 = true := by
  intro n
  induction n with
  | zero => intro s _; exact ⟨rfl, rfl⟩
  | succ n ih =>
    intro s hs
    rcases s with ⟨p, a, b⟩
    simp only at hs
    subst hs
    rcases hda : da (ta a) with ⟨ra, a1⟩
    cases ra
    case false =>
      rcases h4 : seq2Drive ta tb da db n ⟨0, a1, b⟩ with ⟨r, f, e3⟩
      have hih := ih ⟨0, a1, b⟩ rfl
      rw [h4] at hih
      simp only at hih
      simp [seq2Drive, seq2Tick, seq2IsDone, hda, h4,
        noBTickBeforeADone, noATickAfterADone]
      exact hih
    case true =>
      rcases hdb : db b with ⟨rb, b1⟩
      cases rb
      case true =>
        simp [seq2Drive, seq2Tick, seq2IsDone, hda, hdb,
          noBTickBeforeADone, noATickAfterADone, hasEv]
      case false =>
        rcases h4 : seq2Drive ta tb da db n ⟨1, a1, b1⟩ with ⟨r, f, e3⟩
        have hA := seq2_pos_ge_one_noA ta tb da db n ⟨1, a1, b1⟩ (by simp)
        rw [h4] at hA
        simp only at hA
        simp [seq2Drive, seq2Tick, seq2IsDone, hda, hdb, h4,
          noBTickBeforeADone, noATickAfterADone, hasEv]
        exact noAEvents_hasEv_tick hA

/-- Claim C5: driving `Sequence([a, b])` with the scheduler's
tick-then-isDone loop, `b` never receives a `tick()` before an
`isDone()` query on `a` has first returned true; after `a` is observed
done, `a` never receives another `tick()`; and each composite
`isDone()` call moves the cursor forward, past every child it observes
done, returning true exactly when the resulting cursor is out of range
(both children exhausted). -/
theorem c5_sequence_ordering {σ τ : Type} (ta : σ → σ) (tb : τ → τ)
    (da : σ → Bool × σ) (db : τ → Bool × τ) (a0 : σ) (b0 : τ) (n : Nat) :
    noBTickBeforeADone (seq2Drive ta tb da db n ⟨0, a0, b0⟩).2.2 = true ∧
      noATickAfterADone (seq2Drive ta tb da db n ⟨0, a0, b0⟩).2.2 = true ∧
      (∀ s : Seq2 σ τ,
        ((seq2IsDone da db s).1.1 = true ↔ 2 ≤ (seq2IsDone da db s).1.2.pos) ∧
          s.pos ≤ (seq2IsDone da db s).1.2.pos) := by
  refine ⟨(seq2_pos_zero_traces ta tb da db n ⟨0, a0, b0⟩ rfl).1,
    (seq2_pos_zero_traces ta tb da db n ⟨0, a0, b0⟩ rfl).2, ?_⟩
  intro s
  rcases s with ⟨p, a, b⟩
  rcases p with _ | _ | m
  · rcases hda : da a with ⟨ra, a1⟩
    cases ra
    case false => simp [seq2IsDone, hda]
    case true =>
      rcases hdb : db b with ⟨rb, b1⟩
      cases rb <;> simp [seq2IsDone, hda, hdb]
  · rcases hdb : db b with ⟨rb, b1⟩
    cases rb <;> simp [seq2IsDone, hdb]
  · simp [seq2IsDone]

/-- Claim C8 fails on the code: `Horizontal([])` constructs successfully
(no validation happens anywhere) and the resulting widget's `isDone()`
is vacuously true, rather than construction failing with a
`ConfigurationError`. -/
theorem c8_no_validation_counterexample :
    horizontalInit ([] : List (Child Unit)) = some [] ∧
      (horizontalIsDone ([] : List (Child Unit))).1 = true := by
  exact ⟨rfl, rfl⟩

/-- Claim C8 amended: no construction-time validation exists in the
code.  `Horizontal` constructs for every child list (an empty list gives
a vacuously done widget); `Repeat` constructs for every `times` and with
`times ≤ 0` is immediately done on the first `isDone()` query without
touching the child; `ChangingPosition` with `maxTime = 0` constructs and
is immediately done; `Sequence` with a non-empty list constructs with
the cursor at 0, while `Sequence([])` fails at construction only because
`widgets[0].getElement()` is an access on `undefined` — a type error,
not a `ConfigurationError`. -/
theorem c8_no_validation_amended {σ : Type} (t : Int) (s : σ)
    (cd : σ → Bool × σ) (cr : σ → σ) (cs : List (Child σ))
    (atTime : Nat → Int × Int) (h1 : t ≤ 0) (h2 : cs ≠ []) :
    horizontalInit cs = some cs ∧
      (repeatIsDone cd cr (repeatInit t s)).1.1 = true ∧
      changingPositionIsDone 0 (changingPositionInit atTime s) = true ∧
      sequenceInit ([] : List (Child σ)) = none ∧
      sequenceInit cs = some (0, cs) := by
  refine ⟨rfl, ?_, rfl, rfl, ?_⟩
  · simp [repeatIsDone, repeatInit, h1]
  · cases cs with
    | nil => exact absurd rfl h2
    | cons c cs => rfl

/-- Witness for C8 at `t = -1` and a one-element child list. -/
theorem c8_no_validation_amended_witness :
    ((-1 : Int) ≤ 0 ∧
        ([⟨id, fun m => (true, m), id, 0⟩] : List (Child Nat)) ≠ []) ∧
      (horizontalInit ([⟨id, fun m => (true, m), id, 0⟩] : List (Child Nat))
          = some [⟨id, fun m => (true, m), id, 0⟩] ∧
        (repeatIsDone (fun m : Nat => (true, m)) id
            (repeatInit (-1) 0)).1.1 = true ∧
        changingPositionIsDone 0
            (changingPositionInit (fun _ => ((0 : Int), (0 : Int))) (0 : Nat))
          = true ∧
        sequenceInit ([] : List (Child Nat)) = none ∧
        sequenceInit ([⟨id, fun m => (true, m), id, 0⟩] : List (Child Nat))
          = some (0, [⟨id, fun m => (true, m), id, 0⟩])) :=
  ⟨⟨by decide, by simp⟩,
    c8_no_validation_amended (-1) 0 (fun m : Nat => (true, m)) id
      ([⟨id, fun m => (true, m), id, 0⟩] : List (Child Nat))
      (fun _ => ((0 : Int), (0 : Int))) (by decide) (by simp)⟩
